import Mathlib

/-!
Shallow embedding of `homeassistant/components/tuya/__init__.py` (the Tuya
integration core: device-directory reconciliation, subscription lifecycle,
and the update-fanout dispatcher), together with theorems settling the
spec's claims about it.

Conventions:
* Python `set[str]` is modelled as `Finset String` (`add` = `insert`,
  `discard` = `erase`, `in` = `∈`).
* Python dicts are modelled either as key lists (when only key membership
  matters) or as `String → Option _` maps.
* A raised exception is modelled as `Except`/an `error` field; Python
  `dict.pop(k)` without a default raises `KeyError` when `k` is absent.
* `hass.add_job(cb, x)` enqueues the callback for later execution on the
  event loop; we model the queue of scheduled `async_remove_device` jobs
  as a FIFO list of device ids.
-/

/-- The integration domain; the constant lives in the external `.const`
module (`DOMAIN`), used as the provider tag on registry identifiers. -/
def DOMAIN : String := "tuya"

/-- Python exceptions relevant to the embedded paths. -/
inductive PyError where
  | keyError
deriving DecidableEq, Repr

/-- `TuyaDevice` as the listener sees it: the identity plus an opaque
status payload. -/
structure TuyaDevice where
  id : String
  status : String
deriving DecidableEq, Repr

/-- Signals sent through the Home Assistant dispatcher by the listener:
the per-device update signal `TUYA_HA_SIGNAL_UPDATE_ENTITY_<id>` and the
discovery signal `TUYA_DISCOVERY_NEW` with a list of new device ids. -/
inductive Signal where
  | updateEntity (device_id : String)
  | discoveryNew (device_ids : List String)
deriving DecidableEq, Repr

/-! ## Device registry and `cleanup_device_registry` -/

/-- One entry of the Home Assistant device registry: its registry-internal
id (`dev_id`) and its set of `(domain, identifier)` pairs. -/
structure DeviceEntry where
  id : String
  identifiers : List (String × String)
deriving DecidableEq, Repr

/-- The device registry: the entries of `device_registry_object.devices`. -/
structure DeviceRegistryState where
  devices : List DeviceEntry
deriving DecidableEq, Repr

/-- The inner loop of `cleanup_device_registry`: an entry is removed when
some identifier `item` has `DOMAIN == item[0]` and
`item[1] not in device_manager.device_map` (the `break` makes one removal
per entry).  `deviceMap` is the key set of `device_manager.device_map`. -/
def entryStale (deviceMap : List String) (e : DeviceEntry) : Bool :=
  e.identifiers.any (fun item => DOMAIN == item.1 && !(deviceMap.contains item.2))

/-- `cleanup_device_registry`: iterate over a snapshot of the registry's
entries and call `async_remove_device(dev_id)` for each stale entry.
Returns the resulting registry together with the list of removed
`dev_id`s. -/
def cleanup_device_registry (deviceMap : List String) (reg : DeviceRegistryState) :
    DeviceRegistryState × List String :=
  (⟨reg.devices.filter (fun e => !(entryStale deviceMap e))⟩,
   (reg.devices.filter (fun e => entryStale deviceMap e)).map (fun e => e.id))

/-! ## `DeviceListener.update_device` -/

/-- Result of one `update_device` call: the (unchanged or mutated)
`device_ids` set, the dispatcher signals sent, and a raised exception if
any.  An exception leaves the state as it was when it was raised. -/
structure UpdateResult where
  device_ids : Finset String
  signals : List Signal
  error : Option PyError

/-- `DeviceListener.update_device`: if `device.id in self.device_ids`, the
debug log line evaluates `self.device_manager.device_map[device.id].status`
(a `KeyError` when the id is not a key of `device_map`) and then exactly
one `dispatcher_send` of the per-device update signal is made; otherwise
the call does nothing.  `device_map` is the key set of
`device_manager.device_map`. -/
def update_device (device_map : List String) (device_ids : Finset String)
    (device : TuyaDevice) : UpdateResult :=
  if device.id ∈ device_ids then
    if device.id ∈ device_map then
      ⟨device_ids, [Signal.updateEntity device.id], none⟩
    else
      ⟨device_ids, [], some PyError.keyError⟩
  else
    ⟨device_ids, [], none⟩

/-! ## `DeviceListener` add/remove flow and the scheduled removal jobs -/

/-- The listener-visible state: the shared `device_ids` set, the set of
identities that currently have a device-registry entry with identifier
`(DOMAIN, id)`, the FIFO queue of `async_remove_device` jobs scheduled via
`hass.add_job`, the dispatcher signals sent so far, and the identities
whose registry entry has been removed (the device-gone effect). -/
structure HassState where
  device_ids : Finset String
  registry : Finset String
  jobs : List String
  signals : List Signal
  gone : List String

/-- `DeviceListener.async_remove_device`: look the identity up in the
device registry by identifier `(DOMAIN, device_id)`; only when an entry is
found is the entry removed and the identity discarded from
`self.device_ids`. -/
def async_remove_device (s : HassState) (device_id : String) : HassState :=
  if device_id ∈ s.registry then
    { s with registry := s.registry.erase device_id,
             device_ids := s.device_ids.erase device_id,
             gone := s.gone ++ [device_id] }
  else s

/-- `DeviceListener.remove_device`: schedule `async_remove_device` on the
event loop via `hass.add_job`. -/
def remove_device (s : HassState) (device_id : String) : HassState :=
  { s with jobs := s.jobs ++ [device_id] }

/-- The state effect of `DeviceListener.add_device`: schedule
`async_remove_device(device.id)` via `hass.add_job` ("ensure the device
isn't present stale"), add the id to `self.device_ids`, and send the
`TUYA_DISCOVERY_NEW` discovery signal.  The MQ restart it also performs
only touches the subscription-session state and is embedded separately
below (`add_device_mq_states`). -/
def add_device (s : HassState) (device : TuyaDevice) : HassState :=
  let s1 := { s with jobs := s.jobs ++ [device.id] }
  { s1 with device_ids := insert device.id s1.device_ids,
            signals := s1.signals ++ [Signal.discoveryNew [device.id]] }

/-- Execute the oldest scheduled `async_remove_device` job (the event loop
runs jobs in the order `hass.add_job` queued them). -/
def run_next_job (s : HassState) : HassState :=
  match s.jobs with
  | [] => s
  | j :: rest => async_remove_device { s with jobs := rest } j

/-! ## Subscription sessions (`TuyaOpenMQ`) in `add_device`

Sessions are identified by a handle drawn from a fresh counter.  `active`
is the list of handles of currently running sessions, `current` the handle
held in `device_manager.mq`.  Per the SDK contract assumed by the spec,
`stop()` deactivates the session it is called on. -/

structure MQSystem where
  active : List Nat
  current : Nat
  fresh : Nat
deriving DecidableEq, Repr

/-- `device_manager.mq.stop()`: the current session stops running. -/
def mq_stop (s : MQSystem) : MQSystem :=
  { s with active := s.active.filter (fun h => h != s.current) }

/-- `tuya_mq = TuyaOpenMQ(device_manager.api)`: allocate a new, not yet
started session; returns its handle. -/
def mq_create (s : MQSystem) : MQSystem × Nat :=
  ({ s with fresh := s.fresh + 1 }, s.fresh)

/-- `tuya_mq.start()`: the new session starts running. -/
def mq_start (s : MQSystem) (h : Nat) : MQSystem :=
  { s with active := h :: s.active }

/-- `device_manager.mq = tuya_mq`: hand the manager the new session. -/
def mq_assign (s : MQSystem) (h : Nat) : MQSystem :=
  { s with current := h }

/-- The session states reached during one `add_device` call, in program
order: after `mq.stop()`, after `TuyaOpenMQ(...)`, after `start()`, and
after the reassignment of `device_manager.mq`. -/
def add_device_mq_states (s : MQSystem) : List MQSystem :=
  let s1 := mq_stop s
  let p := mq_create s1
  let s3 := mq_start p.1 p.2
  let s4 := mq_assign s3 p.2
  [s1, p.1, s3, s4]

/-- The session state left behind by one `add_device` call. -/
def add_device_mq_final (s : MQSystem) : MQSystem :=
  mq_assign (mq_start (mq_create (mq_stop s)).1 (mq_create (mq_stop s)).2)
    (mq_create (mq_stop s)).2

/-- All intermediate session states reached while processing a sequence of
`n` add-events. -/
def run_adds_states (s : MQSystem) : Nat → List MQSystem
  | 0 => []
  | n + 1 => add_device_mq_states s ++ run_adds_states (add_device_mq_final s) n

/-- The subscription-session invariant established by `_init_tuya_sdk`'s
initial `tuya_mq.start()`: the only session that may be running is the one
the manager holds. -/
def mq_inv (s : MQSystem) : Prop :=
  s.active = [] ∨ s.active = [s.current]

/-! ## `async_setup_entry` and `_init_tuya_sdk` -/

/-- The login/connect response of `api.connect`, reduced to the
`response.get("success", False)` flag that `_init_tuya_sdk` checks. -/
structure ConnectResponse where
  success : Bool
deriving DecidableEq, Repr

/-- Python `dict.pop(k)` without a default: raises `KeyError` when the key
is absent.  The dict `hass.data[DOMAIN]` is modelled by its key list (the
entry ids holding a `HomeAssistantTuyaData`). -/
def dictPop (l : List String) (k : String) : Except PyError (List String) :=
  if k ∈ l then Except.ok (l.filter (fun x => x != k)) else Except.error PyError.keyError

/-- `_init_tuya_sdk`, as far as bring-up bookkeeping is concerned: if the
connect response reports failure (`response.get("success", False) is
False`) it returns `False` *before* `hass.data[DOMAIN][entry.entry_id]` is
assigned; on the success path the entry id is stored and it returns
`True`. -/
def init_tuya_sdk (response : ConnectResponse) (tuyaData : List String)
    (entry_id : String) : Bool × List String :=
  if response.success = false then (false, tuyaData)
  else (true, tuyaData ++ [entry_id])

/-- `async_setup_entry`'s bring-up/cleanup skeleton:
`hass.data.setdefault(DOMAIN, {})`, run `_init_tuya_sdk`, and on failure
`hass.data[DOMAIN].pop(entry.entry_id)` followed by dropping the `DOMAIN`
key when the dict became empty.  The result is the returned bool and the
final `hass.data[DOMAIN]` (`none` when the key is absent); a `KeyError`
from `pop` propagates. -/
def async_setup_entry (response : ConnectResponse) (hassTuya : Option (List String))
    (entry_id : String) : Except PyError (Bool × Option (List String)) :=
  let d0 := hassTuya.getD []
  let r := init_tuya_sdk response d0 entry_id
  if r.1 then Except.ok (true, some r.2)
  else
    match dictPop r.2 entry_id with
    | Except.error e => Except.error e
    | Except.ok d2 => Except.ok (false, if d2.isEmpty then none else some d2)

/-! ## The `CONF_PROJECT_TYPE` → `CONF_AUTH_TYPE` migration -/

/-- Config key, from the external `.const` module. -/
def CONF_AUTH_TYPE : String := "auth_type"

/-- Legacy config key, from the external `.const` module (distinct from
`CONF_AUTH_TYPE`). -/
def CONF_PROJECT_TYPE : String := "project_type"

/-- `{**d, k: v}`: dict update at one key. -/
def dictInsert (d : String → Option Nat) (k : String) (v : Nat) : String → Option Nat :=
  fun x => if x = k then some v else d x

/-- `d.pop(k)` where the key is known present: remove the key. -/
def dictRemove (d : String → Option Nat) (k : String) : String → Option Nat :=
  fun x => if x = k then none else d x

/-- The migration step at the top of `async_setup_entry`: when
`CONF_PROJECT_TYPE in entry.data`, build
`{**entry.data, CONF_AUTH_TYPE: entry.data[CONF_PROJECT_TYPE]}`, pop
`CONF_PROJECT_TYPE`, and write the result back; otherwise the data is left
alone.  Values are modelled as `Nat` (the auth-type enum value). -/
def migrate_entry_data (d : String → Option Nat) : String → Option Nat :=
  match d CONF_PROJECT_TYPE with
  | some v => dictRemove (dictInsert d CONF_AUTH_TYPE v) CONF_PROJECT_TYPE
  | none => d

/-! ## Theorems -/

/-- Python `x not in l` for the modelled dict key lists. -/
theorem contains_eq_false_iff (l : List String) (a : String) :
    l.contains a = false ↔ a ∉ l := by
  simp [List.elem_iff]

/-- `entryStale` decides exactly "some identifier carries the `DOMAIN` tag
and its identity is absent from the device map". -/
theorem entryStale_iff (deviceMap : List String) (e : DeviceEntry) :
    entryStale deviceMap e = true ↔
      ∃ item, item ∈ e.identifiers ∧ item.1 = DOMAIN ∧ item.2 ∉ deviceMap := by
  simp only [entryStale, List.any_eq_true, Bool.and_eq_true, beq_iff_eq,
    Bool.not_eq_true', contains_eq_false_iff]
  constructor
  · rintro ⟨item, hmem, hdom, habs⟩
    exact ⟨item, hmem, hdom.symm, habs⟩
  · rintro ⟨item, hmem, hdom, habs⟩
    exact ⟨item, hmem, hdom.symm, habs⟩

/-- C4: `cleanup_device_registry` deletes exactly the registry entries
that carry a `(DOMAIN, id)` identifier whose `id` is absent from
`device_map`; an entry none of whose identifiers carries the `DOMAIN` tag
survives the cleanup, regardless of its identities. -/
theorem cleanup_removes_exactly_stale_tuya_entries
    (deviceMap : List String) (reg : DeviceRegistryState) (e : DeviceEntry) :
    (e ∈ (cleanup_device_registry deviceMap reg).1.devices ↔
      e ∈ reg.devices ∧
        ¬ ∃ item, item ∈ e.identifiers ∧ item.1 = DOMAIN ∧ item.2 ∉ deviceMap) ∧
    ((∀ item, item ∈ e.identifiers → item.1 ≠ DOMAIN) → e ∈ reg.devices →
      e ∈ (cleanup_device_registry deviceMap reg).1.devices) := by
  have hmain : e ∈ (cleanup_device_registry deviceMap reg).1.devices ↔
      e ∈ reg.devices ∧
        ¬ ∃ item, item ∈ e.identifiers ∧ item.1 = DOMAIN ∧ item.2 ∉ deviceMap := by
    simp only [cleanup_device_registry, List.mem_filter, Bool.not_eq_true',
      ← Bool.not_eq_true, entryStale_iff]
  refine ⟨hmain, fun hall hmem => hmain.mpr ⟨hmem, ?_⟩⟩
  rintro ⟨item, hitem, hdom, _⟩
  exact hall item hitem hdom

/-- Witness for C4 at the spec's scenario: directory `{A, B}`, registry
entries for `{A, B, C}` under this provider and one entry under a foreign
provider with an absent identity; after the cleanup the `C` entry is gone,
the `A` entry and the foreign entry survive. -/
theorem cleanup_removes_exactly_stale_tuya_entries_witness :
    (⟨"rc", [("tuya", "C")]⟩ : DeviceEntry) ∉
      (cleanup_device_registry ["A", "B"]
        ⟨[⟨"ra", [("tuya", "A")]⟩, ⟨"rb", [("tuya", "B")]⟩, ⟨"rc", [("tuya", "C")]⟩,
          ⟨"rz", [("hue", "Z")]⟩]⟩).1.devices ∧
    (⟨"ra", [("tuya", "A")]⟩ : DeviceEntry) ∈
      (cleanup_device_registry ["A", "B"]
        ⟨[⟨"ra", [("tuya", "A")]⟩, ⟨"rb", [("tuya", "B")]⟩, ⟨"rc", [("tuya", "C")]⟩,
          ⟨"rz", [("hue", "Z")]⟩]⟩).1.devices ∧
    (⟨"rz", [("hue", "Z")]⟩ : DeviceEntry) ∈
      (cleanup_device_registry ["A", "B"]
        ⟨[⟨"ra", [("tuya", "A")]⟩, ⟨"rb", [("tuya", "B")]⟩, ⟨"rc", [("tuya", "C")]⟩,
          ⟨"rz", [("hue", "Z")]⟩]⟩).1.devices := by
  refine ⟨fun hmem => ?_, ?_, ?_⟩
  · rcases ((cleanup_removes_exactly_stale_tuya_entries ["A", "B"]
        ⟨[⟨"ra", [("tuya", "A")]⟩, ⟨"rb", [("tuya", "B")]⟩, ⟨"rc", [("tuya", "C")]⟩,
          ⟨"rz", [("hue", "Z")]⟩]⟩ ⟨"rc", [("tuya", "C")]⟩).1.mp hmem) with ⟨-, hno⟩
    exact hno ⟨("tuya", "C"), by decide, by decide, by decide⟩
  · exact (cleanup_removes_exactly_stale_tuya_entries ["A", "B"] _ _).1.mpr
      ⟨by decide, by decide⟩
  · exact (cleanup_removes_exactly_stale_tuya_entries ["A", "B"]
      ⟨[⟨"ra", [("tuya", "A")]⟩, ⟨"rb", [("tuya", "B")]⟩, ⟨"rc", [("tuya", "C")]⟩,
        ⟨"rz", [("hue", "Z")]⟩]⟩ ⟨"rz", [("hue", "Z")]⟩).2
      (by decide) (by decide)

/-- C7: pruning is idempotent — running `cleanup_device_registry` a second
time on the result, with the same device map, changes nothing and removes
no entry. -/
theorem cleanup_idempotent (deviceMap : List String) (reg : DeviceRegistryState) :
    (cleanup_device_registry deviceMap
        (cleanup_device_registry deviceMap reg).1).1 =
      (cleanup_device_registry deviceMap reg).1 ∧
    (cleanup_device_registry deviceMap
        (cleanup_device_registry deviceMap reg).1).2 = [] := by
  constructor
  · simp [cleanup_device_registry, List.filter_filter]
  · simp only [cleanup_device_registry, List.map_eq_nil_iff, List.filter_filter]
    rw [List.filter_eq_nil_iff]
    intro a _
    simp

/-- C6: a status update for an identity that is a member of `device_ids`
(and, as the SDK caller guarantees, a key of `device_map`) makes exactly
one `dispatcher_send` of the per-device update signal, and raises
nothing. -/
theorem update_device_known_exactly_one_signal
    (device_map : List String) (device_ids : Finset String) (device : TuyaDevice)
    (h1 : device.id ∈ device_ids) (h2 : device.id ∈ device_map) :
    (update_device device_map device_ids device).signals =
      [Signal.updateEntity device.id] ∧
    (update_device device_map device_ids device).error = none := by
  simp [update_device, h1, h2]

/-- Witness for C6: a tracked device `A` receives one update signal. -/
theorem update_device_known_exactly_one_signal_witness :
    (update_device ["A"] {"A"} ⟨"A", "p"⟩).signals = [Signal.updateEntity "A"] ∧
    (update_device ["A"] {"A"} ⟨"A", "p"⟩).error = none :=
  update_device_known_exactly_one_signal ["A"] {"A"} ⟨"A", "p"⟩ (by decide) (by decide)

/-- C9: `update_device` never mutates `device_ids` — on every path
(tracked device, untracked device, even the `KeyError` path of the debug
lookup) the set is returned unchanged. -/
theorem update_device_preserves_device_ids
    (device_map : List String) (device_ids : Finset String) (device : TuyaDevice) :
    (update_device device_map device_ids device).device_ids = device_ids := by
  simp only [update_device]
  split
  · split <;> rfl
  · rfl

/-- Counterexample to C5 as stated: with `IdentitySet = {A}`, a status
update for the unknown identity `B` does *not* add `B` to `device_ids`
and emits no signal at all (no discovery signal, no restart) — the code
silently ignores it instead of running a device-add flow. -/
theorem update_unknown_device_ignored_counterexample :
    ("B" ∉ (update_device ["A"] {"A"} ⟨"B", "p"⟩).device_ids) ∧
    (update_device ["A"] {"A"} ⟨"B", "p"⟩).signals = [] := by
  decide

/-- C5 amended: a status update whose identity is not in `device_ids` is a
no-op — `device_ids` is unchanged, no signal is emitted and nothing is
raised; the device-add flow (membership add, discovery signal, session
restart) runs only in `DeviceListener.add_device`. -/
theorem update_unknown_device_ignored
    (device_map : List String) (device_ids : Finset String) (device : TuyaDevice)
    (h : device.id ∉ device_ids) :
    update_device device_map device_ids device = ⟨device_ids, [], none⟩ := by
  simp [update_device, h]

/-- Witness for the amended C5: the scenario of the counterexample,
through the general theorem. -/
theorem update_unknown_device_ignored_witness :
    update_device ["A"] {"A"} ⟨"B", "q"⟩ = ⟨{"A"}, [], none⟩ :=
  update_unknown_device_ignored ["A"] {"A"} ⟨"B", "q"⟩ (by decide)

/-- Counterexample to C1 as stated: device `X` is tracked and has a
registry entry; `remove_device X` schedules the removal, then
`add_device X` runs before the removal executes.  Nothing cancels the
pending job, so when it executes it finds the registry entry, removes it
(the device-gone effect *is* applied) and discards `X` from `device_ids`
— `X` is *not* a member afterwards. -/
theorem remove_then_add_race_counterexample :
    ("X" ∉ (run_next_job (add_device
        (remove_device ⟨{"X"}, {"X"}, [], [], []⟩ "X") ⟨"X", "s"⟩)).device_ids) ∧
    (run_next_job (add_device
        (remove_device ⟨{"X"}, {"X"}, [], [], []⟩ "X") ⟨"X", "s"⟩)).gone = ["X"] := by
  decide

/-- C1 amended: in the remove-then-add race the pending removal is not
cancelled; its effect when it executes depends solely on whether a
device-registry entry for `X` exists at that moment.  If one exists, the
entry is removed (device-gone applied) and `X` is discarded from
`device_ids` despite the intervening add; only if no entry exists does
`X` stay in `device_ids` with no device-gone effect. -/
theorem remove_then_add_race (ids reg : Finset String) (X st : String) :
    (X ∈ reg →
      X ∉ (run_next_job (add_device
          (remove_device ⟨ids, reg, [], [], []⟩ X) ⟨X, st⟩)).device_ids ∧
      (run_next_job (add_device
          (remove_device ⟨ids, reg, [], [], []⟩ X) ⟨X, st⟩)).gone = [X]) ∧
    (X ∉ reg →
      X ∈ (run_next_job (add_device
          (remove_device ⟨ids, reg, [], [], []⟩ X) ⟨X, st⟩)).device_ids ∧
      (run_next_job (add_device
          (remove_device ⟨ids, reg, [], [], []⟩ X) ⟨X, st⟩)).gone = []) := by
  constructor
  · intro h
    simp [remove_device, add_device, run_next_job, async_remove_device, h,
      Finset.not_mem_erase]
  · intro h
    simp [remove_device, add_device, run_next_job, async_remove_device, h,
      Finset.mem_insert_self]

/-- Witness for the amended C1: with no registry entry for `X`, the add
survives the pending removal. -/
theorem remove_then_add_race_witness :
    "X" ∈ (run_next_job (add_device
        (remove_device ⟨{"X"}, ∅, [], [], []⟩ "X") ⟨"X", "s"⟩)).device_ids ∧
    (run_next_job (add_device
        (remove_device ⟨{"X"}, ∅, [], [], []⟩ "X") ⟨"X", "s"⟩)).gone = [] :=
  (remove_then_add_race {"X"} ∅ "X" "s").2 (by decide)

/-- Counterexample to C8 as stated: `X` is in `device_ids` but has no
device-registry entry; the uncontested `async_remove_device X` finds no
entry, so it does *not* purge `X` — `X` is still a member afterwards. -/
theorem async_remove_device_no_entry_counterexample :
    "X" ∈ (async_remove_device ⟨{"X"}, ∅, [], [], []⟩ "X").device_ids := by
  decide

/-- C8 amended: when a device-registry entry for `X` exists,
`async_remove_device X` removes the entry (observer detach / device-gone)
and purges `X` from `device_ids`; the purge is conditional on the entry
lookup succeeding. -/
theorem async_remove_device_purges_when_registered (s : HassState) (X : String)
    (h : X ∈ s.registry) :
    X ∉ (async_remove_device s X).device_ids ∧
    X ∉ (async_remove_device s X).registry ∧
    (async_remove_device s X).gone = s.gone ++ [X] := by
  simp [async_remove_device, h, Finset.not_mem_erase]

/-- Witness for the amended C8: a registered `X` is purged. -/
theorem async_remove_device_purges_when_registered_witness :
    "X" ∉ (async_remove_device ⟨{"X"}, {"X"}, [], [], []⟩ "X").device_ids ∧
    "X" ∉ (async_remove_device ⟨{"X"}, {"X"}, [], [], []⟩ "X").registry ∧
    (async_remove_device ⟨{"X"}, {"X"}, [], [], []⟩ "X").gone = [] ++ ["X"] :=
  async_remove_device_purges_when_registered ⟨{"X"}, {"X"}, [], [], []⟩ "X" (by decide)

/-- Under the session invariant, `device_manager.mq.stop()` leaves no
session running. -/
theorem mq_stop_active_of_inv (s : MQSystem) (h : mq_inv s) :
    (mq_stop s).active = [] := by
  rcases h with h | h <;> simp [mq_stop, h]

/-- One `add_device` call re-establishes the session invariant. -/
theorem mq_inv_add_device_final (s : MQSystem) (h : mq_inv s) :
    mq_inv (add_device_mq_final s) := by
  rcases h with h | h <;>
    exact Or.inr (by simp [add_device_mq_final, mq_create, mq_start, mq_assign, mq_stop, h])

/-- C2: starting from the invariant established by the initial
`tuya_mq.start()` (only the manager's session runs), every intermediate
session state reached while processing any sequence of add-events has at
most one active subscription session: `add_device` stops the current
session before the replacement is created and started. -/
theorem add_device_single_active_session (s : MQSystem) (n : Nat) (h : mq_inv s) :
    ∀ t ∈ run_adds_states s n, t.active.length ≤ 1 := by
  induction n generalizing s with
  | zero =>
    intro t ht
    simp [run_adds_states] at ht
  | succ n ih =>
    intro t ht
    rw [run_adds_states] at ht
    rcases List.mem_append.mp ht with ht | ht
    · have hstop := mq_stop_active_of_inv s h
      simp only [add_device_mq_states, mq_create, mq_start, mq_assign,
        List.mem_cons, List.mem_singleton, List.not_mem_nil, or_false] at ht
      rcases ht with rfl | rfl | rfl | rfl <;> simp [hstop]
    · exact ih (add_device_mq_final s) (mq_inv_add_device_final s h) t ht

/-- Witness for C2: a fleet whose manager holds the one running session,
across three add-events. -/
theorem add_device_single_active_session_witness :
    mq_inv (⟨[0], 0, 1⟩ : MQSystem) ∧
    ∀ t ∈ run_adds_states ⟨[0], 0, 1⟩ 3, t.active.length ≤ 1 :=
  ⟨Or.inr rfl, add_device_single_active_session ⟨[0], 0, 1⟩ 3 (Or.inr rfl)⟩

/-- C3: the login-failure path of bring-up does *not* return `False`
cleanly.  When the connect response reports failure, `_init_tuya_sdk`
returns before `hass.data[DOMAIN][entry.entry_id]` is ever assigned, so
the cleanup `hass.data[DOMAIN].pop(entry.entry_id)` in
`async_setup_entry` raises `KeyError` on every fresh failed setup. -/
theorem async_setup_entry_login_failure_raises (hassTuya : Option (List String))
    (entry_id : String) (h : entry_id ∉ hassTuya.getD []) :
    async_setup_entry ⟨false⟩ hassTuya entry_id = Except.error PyError.keyError := by
  simp [async_setup_entry, init_tuya_sdk, dictPop, h]

/-- Witness for C3's failing input: a fresh entry (no prior Tuya data in
`hass.data`) whose login fails. -/
theorem async_setup_entry_login_failure_raises_witness :
    async_setup_entry ⟨false⟩ none "entry1" = Except.error PyError.keyError :=
  async_setup_entry_login_failure_raises none "entry1" (by decide)

/-- C10: for entry data containing the legacy `CONF_PROJECT_TYPE` key, the
migration rewrites the data so that `CONF_AUTH_TYPE` maps to the old
`CONF_PROJECT_TYPE` value, `CONF_PROJECT_TYPE` is absent, and every other
key is unchanged. -/
theorem migrate_entry_data_spec (d : String → Option Nat) (v : Nat)
    (h : d CONF_PROJECT_TYPE = some v) :
    migrate_entry_data d CONF_AUTH_TYPE = some v ∧
    migrate_entry_data d CONF_PROJECT_TYPE = none ∧
    ∀ k, k ≠ CONF_AUTH_TYPE → k ≠ CONF_PROJECT_TYPE → migrate_entry_data d k = d k := by
  have hm : migrate_entry_data d =
      dictRemove (dictInsert d CONF_AUTH_TYPE v) CONF_PROJECT_TYPE := by
    unfold migrate_entry_data
    rw [h]
  refine ⟨?_, ?_, ?_⟩
  · rw [hm]
    simp [dictRemove, dictInsert, CONF_AUTH_TYPE, CONF_PROJECT_TYPE]
  · rw [hm]
    simp [dictRemove]
  · intro k h1 h2
    rw [hm]
    simp [dictRemove, dictInsert, h1, h2]

/-- Witness for C10: a concrete legacy entry with a project type and an
endpoint key. -/
theorem migrate_entry_data_spec_witness :
    migrate_entry_data
      (fun k => if k = "project_type" then some 0
                else if k = "endpoint" then some 5 else none) CONF_AUTH_TYPE = some 0 ∧
    migrate_entry_data
      (fun k => if k = "project_type" then some 0
                else if k = "endpoint" then some 5 else none) CONF_PROJECT_TYPE = none ∧
    migrate_entry_data
      (fun k => if k = "project_type" then some 0
                else if k = "endpoint" then some 5 else none) "endpoint" = some 5 := by
  have h := migrate_entry_data_spec
    (fun k => if k = "project_type" then some 0
              else if k = "endpoint" then some 5 else none) 0 (by decide)
  exact ⟨h.1, h.2.1, (h.2.2 "endpoint" (by decide) (by decide)).trans (by decide)⟩
